import Mathlib

/-!
# Verification of the informative-path-planning agent (`simulation_agent.py`)

A shallow embedding of the `Robot` class of
`src/plumes/src/simulation_agent.py` and proofs about its behaviour.

Modelling conventions:
* Python floats are modelled by `ℚ`; the IEEE not-a-number value produced by
  the acquisition functions is modelled by the dedicated constructor
  `FVal.nan`, so that a score is an `FVal` (either `nan` or a rational).
* A waypoint / location (a row of a numpy array) is a `List ℚ`; a trajectory
  is a list of waypoints.
* Exceptions raised by the Python code are modelled by `Except PyError`.
* External collaborators that are not part of this file's subject
  (the path generator `generate_actions`, the acquisition functions of
  `heuristic_rewards`, the environment sampler `sample_world`, the GP
  posterior predictor, the MCTS search, `np.sqrt`) are parameters collected
  in an `Env` record.
* `random.choice(lst)` picks an element of `lst` uniformly at random; it is
  modelled by an externally supplied natural number `r`, the pick being
  `lst[r % len(lst)]` (and an `IndexError` when `lst` is empty).  Statements
  about the *distribution* of the pick are therefore statements about the
  list handed to `random.choice`.
-/

namespace Plumes

/-- A location: one row of a numpy array of coordinates, e.g. `[x, y]`. -/
abbrev Loc := List ℚ

/-- A trajectory: an ordered list of waypoints. -/
abbrev Traj := List Loc

/-- A Python float as produced by an acquisition function: either a number
or the IEEE not-a-number value (for which every `==` comparison is false). -/
inductive FVal where
  | nan : FVal
  | num : ℚ → FVal
deriving DecidableEq, Repr

/-- The numeric content of a score, `none` for not-a-number. -/
def FVal.toNum : FVal → Option ℚ
  | .nan => none
  | .num q => some q

/-- Python `==` on floats: any comparison involving not-a-number is false. -/
def FVal.eqb : FVal → FVal → Bool
  | .num a, .num b => decide (a = b)
  | _, _ => false

/-- Exceptions that the embedded code can raise. -/
inductive PyError where
  | indexError
  | valueError
  | nameError
  | typeError
deriving DecidableEq, Repr

/-- Console / logger output of an embedded function.  The source logs via
`print` statements and the module logger; `warning` would correspond to
`logger.warning`, which the source never calls. -/
inductive LogEvent where
  | printed : String → LogEvent
  | info : String → LogEvent
  | warning : String → LogEvent
deriving DecidableEq, Repr

/-- Whether an event is a warning-level log event. -/
def LogEvent.isWarning : LogEvent → Bool
  | .warning _ => true
  | _ => false

/-- `np.max` on a nonempty list (`0` as an unused default for `[]`). -/
def listMax : List ℚ → ℚ
  | [] => 0
  | [x] => x
  | x :: y :: t => max x (listMax (y :: t))

/-- `np.argmax`: the index of the first occurrence of the maximum. -/
def argmaxIdx : List ℚ → ℕ
  | [] => 0
  | x :: xs => if listMax (x :: xs) ≤ x then 0 else argmaxIdx xs + 1

/-- `np.nanmax`: the maximum ignoring not-a-number entries; not-a-number
when every entry is not-a-number (numpy emits a warning, not an error). -/
def nanmax (l : List FVal) : FVal :=
  match l.filterMap FVal.toNum with
  | [] => .nan
  | x :: xs => .num (listMax (x :: xs))

/-- The rational value of `nanmax` (meaningful when some entry is numeric). -/
def nanmaxVal (l : List FVal) : ℚ :=
  listMax (l.filterMap FVal.toNum)

/-- `np.linspace a b n`: `n` evenly spaced points from `a` to `b` inclusive. -/
def linspace (a b : ℚ) (n : ℕ) : List ℚ :=
  (List.range n).map (fun (i : ℕ) => a + (b - a) * (i : ℚ) / ((n : ℚ) - 1))

/-- The data store of the robot's GP belief (`OnlineGPModel`).

Modelled from the spec: `gpmodel_library` is not under `src/`; §6 of the
spec specifies `BeliefModel` as exposing `add_data(locations, values)` and
the accumulated `locations`, `values`.  `xvals` is `None` before the first
`add_data` call, exactly as the Python model's `xvals` attribute. -/
structure GPState where
  xvals : Option (List Loc)
  zvals : List ℚ
deriving DecidableEq, Repr

/-- Modelled from the spec: `BeliefModel.add_data` appends the batch of
(location, value) pairs to the accumulated data (spec §6); on a fresh model
(`xvals = None`) it installs the batch as the data. -/
def addData (g : GPState) (xs : List Loc) (zs : List ℚ) : GPState :=
  { xvals := some (g.xvals.getD [] ++ xs), zvals := g.zvals ++ zs }

/-- `len(BeliefState.values)`: the number of observed values held. -/
def gpCount (g : GPState) : ℕ := g.zvals.length

/-- Which of the four kernel-hyperparameter branches of `Robot.__init__`
(lines 71-85) executed. -/
inductive KernelRes where
  | trainedJoint
  | trainedAlone
  | loadedFile
  | givenValues
deriving DecidableEq, Repr

/-- The acquisition functions of `heuristic_rewards` that `Robot.__init__`
can select (lines 93-104). -/
inductive AcqFun where
  | mean_UCB
  | info_gain
  | mves
  | exp_improvement
  | gumbel_mves
deriving DecidableEq, Repr

/-- The `param` passed to the acquisition function (`choose_trajectory`
lines 139-153 and `planner` lines 233-241). -/
inductive Param where
  | noParam
  | mesParam : List ℚ → List Loc → List ℚ → Param
  | scalars : List ℚ → Param
  | scalar : ℚ → Param
  | gumbelParam : List ℚ → Param
deriving DecidableEq, Repr

/-- The rectangular extent `self.ranges = (xmin, xmax, ymin, ymax)`. -/
structure Extent where
  x0 : ℚ
  x1 : ℚ
  y0 : ℚ
  y1 : ℚ
deriving DecidableEq, Repr

/-- The mutable state of a `Robot` instance (the attributes that the
embedded methods read or write). -/
structure RobotState where
  dim : ℕ
  loc : Loc
  time : ℚ
  ranges : Extent
  gp : GPState
  kernelRes : KernelRes
  trainData : Option (List Loc × List ℚ)
  f_rew : String
  aquisition_function : AcqFun
  nonmyopic : Bool
  maxes : List ℚ
  current_max : ℚ
  current_max_loc : Loc
  max_val : Option (List ℚ)
  max_locs : Option (List Loc)
  target : Option (List ℚ)
  trajectory : List Traj
  dist : ℚ
  metricsLog : List ℕ
deriving DecidableEq, Repr

/-- The external collaborators (path generator, acquisition evaluation,
environment sampler, GP predictor, maxima samplers, MCTS, `np.sqrt`,
and the stream of `random.choice` draws). -/
structure Env where
  generate : Loc → ℕ → List Traj
  score : ℕ → Traj → GPState → Param → FVal
  measure : List Loc → ℚ → List ℚ
  predict : List Loc → List ℚ
  sampleMaxVals : GPState → ℕ → List ℚ × List Loc × List ℚ
  sampleMaxValsGumbel : GPState → ℕ → List ℚ
  mcts : RobotState → ℕ → Param → Traj × FVal × List Traj × List FVal × List Loc × List ℚ
  sqrtQ : ℚ → ℚ
  randAt : ℕ → ℕ

/-- The keyword arguments consumed by `Robot.__init__` that the embedded
methods depend on. -/
structure Config where
  extent : Extent
  dimension : ℕ
  start_loc : Loc
  start_time : ℚ
  noise : ℚ
  kernel : String
  kernel_dataset : Option (List Loc × List ℚ)
  prior_dataset : Option (List Loc × List ℚ)
  kernel_file : Option String
  f_rew : String
  nonmyopic : Bool
deriving DecidableEq, Repr

/-- The reward-tag dispatch of `Robot.__init__` lines 93-104: the closed
set of supported tags and the acquisition function each one selects. -/
def acqOf (s : String) : Option AcqFun :=
  if s = "mean" then some .mean_UCB
  else if s = "info_gain" then some .info_gain
  else if s = "mes" then some .mves
  else if s = "exp_improve" then some .exp_improvement
  else if s = "gumbel" then some .gumbel_mves
  else none

/-- The kernel-hyperparameter `if/elif` chain of `Robot.__init__` lines
71-85: which branch fires.  Note that the second branch (`elif
kwargs['kernel_dataset'] is not None and self.kernel == 'rbf'`) also
requires the rbf kernel. -/
def resolveKernelRes (cfg : Config) : KernelRes :=
  if cfg.kernel_dataset.isSome && cfg.prior_dataset.isSome && decide (cfg.kernel = "rbf") then
    .trainedJoint
  else if cfg.kernel_dataset.isSome && decide (cfg.kernel = "rbf") then
    .trainedAlone
  else if cfg.kernel_file.isSome then
    .loadedFile
  else
    .givenValues

/-- The dataset the kernel hyperparameters are fitted on by the chain of
lines 71-85 (`none` when no training happens).  Branch one stacks the
prior dataset on top of the kernel dataset (`np.vstack([prior, kernel])`,
lines 74-75). -/
def resolveTrainData (cfg : Config) : Option (List Loc × List ℚ) :=
  let kd := cfg.kernel_dataset.getD ([], [])
  let pd := cfg.prior_dataset.getD ([], [])
  if cfg.kernel_dataset.isSome && cfg.prior_dataset.isSome && decide (cfg.kernel = "rbf") then
    some (pd.1 ++ kd.1, pd.2 ++ kd.2)
  else if cfg.kernel_dataset.isSome && decide (cfg.kernel = "rbf") then
    some kd
  else
    none

/-- `Robot.__init__`: constructs the GP, resolves kernel hyperparameters
(lines 71-85), folds the prior dataset into the belief afterwards (lines
88-89), dispatches the reward tag (lines 93-104, raising `ValueError` for
an unsupported tag), and initialises the bookkeeping fields (lines
124-129): `maxes = []`, `current_max = -1000`, `current_max_loc = [0,0]`.
Note that no validation of `dimension` happens here. -/
def mkRobot (cfg : Config) : Except PyError RobotState :=
  let kres := resolveKernelRes cfg
  let tdata := resolveTrainData cfg
  let gp0 : GPState := { xvals := none, zvals := [] }
  let gp1 := match cfg.prior_dataset with
    | some pd => addData gp0 pd.1 pd.2
    | none => gp0
  match acqOf cfg.f_rew with
  | none => .error .valueError
  | some acq =>
    .ok { dim := cfg.dimension
          loc := cfg.start_loc
          time := cfg.start_time
          ranges := cfg.extent
          gp := gp1
          kernelRes := kres
          trainData := tdata
          f_rew := cfg.f_rew
          aquisition_function := acq
          nonmyopic := cfg.nonmyopic
          maxes := []
          current_max := -1000
          current_max_loc := [0, 0]
          max_val := none
          max_locs := none
          target := none
          trajectory := []
          dist := 0
          metricsLog := [] }

/-- The result of a successful `choose_trajectory` call: the (possibly
updated) robot state, the index the selection landed on, the returned
tuple `(best path, best value, all paths, all values)`, and the console
output the call produced. -/
structure ChooseResult where
  state : RobotState
  bestIdx : ℕ
  bestPath : Traj
  bestVal : FVal
  actions : List Traj
  values : List FVal
  events : List LogEvent
deriving DecidableEq, Repr

/-- The heuristic-parameter construction of `choose_trajectory` lines
139-153: `mes` draws maxima samples and stores them on the robot
(`self.max_val`, `self.max_locs`, `self.target`); `exp_improve` uses the
`maxes` history if nonempty, else the single `current_max` scalar;
`gumbel` draws Gumbel maxima samples (kept local); every other variant
passes no parameter. -/
def buildParam (env : Env) (st : RobotState) (t : ℕ) : Param × RobotState :=
  if st.f_rew = "mes" then
    let s := env.sampleMaxVals st.gp t
    (.mesParam s.1 s.2.1 s.2.2,
     { st with max_val := some s.1, max_locs := some s.2.1, target := some s.2.2 })
  else if st.f_rew = "exp_improve" then
    (if st.maxes.length = 0 then .scalars [st.current_max] else .scalars st.maxes, st)
  else if st.f_rew = "gumbel" then
    (.gumbelParam (env.sampleMaxValsGumbel st.gp t), st)
  else
    (.noParam, st)

/-- The candidate set requested from the path generator
(`choose_trajectory` line 155). -/
def chooseActions (env : Env) (st : RobotState) (t : ℕ) : List Traj :=
  env.generate st.loc t

/-- The score dictionary of `choose_trajectory` lines 160-164 as a list
indexed by candidate number: `value[path] = aquisition_function(time=t,
xvals=action, robot_model=self.GP, param=param)`. -/
def chooseValues (env : Env) (st : RobotState) (t : ℕ) : List FVal :=
  (chooseActions env st t).map
    (fun a => env.score t a (buildParam env st t).2.gp (buildParam env st t).1)

/-- The list handed to `random.choice` in the `try` block (line 169):
`[key for key in value.keys() if value[key] == np.nanmax(value.values())]`.
Keys are `0, ..., n-1`; a key survives the filter exactly when its score
compares `==`-equal to the nanmax (so not-a-number scores never survive). -/
def selectionPool (values : List FVal) : List ℕ :=
  (List.range values.length).filter (fun k => FVal.eqb (values.getD k .nan) (nanmax values))

/-- `Robot.choose_trajectory` (lines 131-175).  Builds the heuristic
parameter, requests the candidate trajectories, scores each of them, and
selects `random.choice` over the argmax keys; when that raises (the argmax
key list is empty: every score not-a-number, or no candidates at all) the
bare `except` falls back to `random.choice` over all keys — which itself
raises an uncaught `IndexError` when there are no candidates.  The only
console output is `print 'num of available actions'` (line 159); the
function contains no logger call, and the commented-out `return None`
(line 173) means `None` is never returned.  `r` is the `random.choice`
draw (see the module doc-comment). -/
def choose_trajectory (env : Env) (st : RobotState) (t : ℕ) (r : ℕ) :
    Except PyError ChooseResult :=
  let st1 := (buildParam env st t).2
  let actions := chooseActions env st t
  let values := chooseValues env st t
  let events := [LogEvent.printed "num of available actions"]
  let pool := selectionPool values
  if pool ≠ [] then
    let k := pool.getD (r % pool.length) 0
    .ok { state := st1, bestIdx := k, bestPath := actions.getD k [],
          bestVal := values.getD k .nan, actions := actions, values := values,
          events := events }
  else if values.length ≠ 0 then
    let k := (List.range values.length).getD (r % values.length) 0
    .ok { state := st1, bestIdx := k, bestPath := actions.getD k [],
          bestVal := values.getD k .nan, actions := actions, values := values,
          events := events }
  else
    .error .indexError

/-- `Robot.collect_observations` (lines 177-187).  Samples the environment
at every waypoint except the last (`xobs[:-1,:]`), adds the batch to the
GP, and updates the running maximum: the loop zips the observed values
with `xobs[1:,:]`, so the i-th value (measured at waypoint i) is paired
with waypoint i+1. -/
def collect_observations (env : Env) (st : RobotState) (xobs : List Loc) :
    RobotState :=
  let zobs := env.measure xobs.dropLast st.time
  let gp1 := addData st.gp xobs.dropLast zobs
  let upd := (zobs.zip (xobs.drop 1)).foldl
    (fun (acc : ℚ × Loc) zx =>
      if zx.1 > acc.1 then (zx.1, [zx.2.getD 0 0, zx.2.getD 1 0]) else acc)
    (st.current_max, st.current_max_loc)
  { st with gp := gp1, current_max := upd.1, current_max_loc := upd.2 }

/-- The prediction grid of `Robot.predict_max` (lines 195-202): a
30-points-per-axis `np.linspace` mesh over the configured extent, row
order as produced by `np.meshgrid(..., indexing='xy')` followed by
`ravel`; in the 3-D case the current time index is appended to every
point. -/
def gridData (st : RobotState) : List Loc :=
  let x1vals := linspace st.ranges.x0 st.ranges.x1 30
  let x2vals := linspace st.ranges.y0 st.ranges.y1 30
  if st.dim = 2 then
    (x2vals.map (fun b => x1vals.map (fun a => [a, b]))).flatten
  else
    (x2vals.map (fun b => x1vals.map (fun a => [a, b, st.time]))).flatten

/-- `Robot.predict_max` (lines 189-205).  On an empty belief
(`self.GP.xvals is None`) it returns the origin and zero without touching
the predictor; otherwise it evaluates the posterior mean on `gridData` and
returns `data[np.argmax(observations)]` with `np.max(observations)`.  For
a dimensionality outside {2, 3} the local variable `data` is never bound
and line 203 raises `NameError`. -/
def predict_max (env : Env) (st : RobotState) : Except PyError (Loc × ℚ) :=
  match st.gp.xvals with
  | none => .ok ([0, 0], 0)
  | some _ =>
    if st.dim = 2 ∨ st.dim = 3 then
      let data := gridData st
      let obs := env.predict data
      .ok (data.getD (argmaxIdx obs) [], listMax obs)
    else
      .error .nameError

/-- The `aq_param` handed to the MCTS search in the non-myopic branch
(`planner` lines 233-241): the bare `current_max` scalar for
`exp_improve`, nothing otherwise. -/
def mctsParam (st : RobotState) : Param :=
  if st.f_rew = "exp_improve" then .scalar st.current_max else .noParam

/-- The non-myopic branch of `planner` (lines 243-256): delegates to the
external `cMCTS.choose_trajectory`, which additionally returns maxima
samples stored into `self.max_locs`, `self.max_val`. -/
def mctsChoose (env : Env) (st : RobotState) (t : ℕ) : Except PyError ChooseResult :=
  let res := env.mcts st t (mctsParam st)
  .ok { state := { st with max_locs := some res.2.2.2.2.1,
                           max_val := some res.2.2.2.2.2 }
        bestIdx := 0
        bestPath := res.1
        bestVal := res.2.1
        actions := res.2.2.1
        values := res.2.2.2.1
        events := [] }

/-- The accumulated-distance update of `planner` lines 283-286: Euclidean
segment lengths from the pre-move pose across the chosen trajectory
(`np.sqrt` abstracted as `env.sqrtQ`). -/
def pathDist (env : Env) (start : Loc) (path : Traj) : ℚ :=
  (path.foldl
    (fun (acc : ℚ × Loc) m =>
      (acc.1 + env.sqrtQ ((acc.2.getD 0 0 - m.getD 0 0) ^ 2 +
                          (acc.2.getD 1 0 - m.getD 1 0) ^ 2), m))
    (0, start)).1

/-- The mode branch of `planner` lines 228-256: myopic mode calls
`choose_trajectory`, non-myopic mode delegates to the MCTS search.  The
branch is decided by the `nonmyopic` flag fixed at construction. -/
def selectAction (env : Env) (st : RobotState) (t : ℕ) : Except PyError ChooseResult :=
  if st.nonmyopic = false then choose_trajectory env st t (env.randAt t)
  else mctsChoose env st t

/-- The observation-location assembly of `planner` lines 266-275: stack
the first two coordinate columns (2-D), additionally the constant time
index `t` (3-D), and raise `ValueError('Only 2D or 3D worlds supported!')`
for any other dimensionality. -/
def stackLocs (d : ℕ) (t : ℕ) (path : Traj) : Except PyError (List Loc) :=
  if d = 2 then .ok (path.map (fun m => [m.getD 0 0, m.getD 1 0]))
  else if d = 3 then .ok (path.map (fun m => [m.getD 0 0, m.getD 1 0, (t : ℚ)]))
  else .error .valueError

/-- One iteration of the `planner` loop body (lines 217-295): set
`self.time = t`, query `predict_max`, select an action (myopic
`choose_trajectory` or the MCTS delegate), record the metrics call, then
assemble the observation locations (raising `ValueError` for a
dimensionality outside {2, 3}, line 275 — and `IndexError` on an empty
chosen path, since `data[:,0]` needs a 2-D array), collect observations,
append the trajectory, accumulate the distance and move to the last
waypoint.  The `if sampling_path is None: break` of line 264 is
unreachable because `choose_trajectory` never returns `None`; the
visualisation calls (plotting, excluded by the spec) are no-ops here. -/
def plannerStep (env : Env) (st0 : RobotState) (t : ℕ) : Except PyError RobotState :=
  let st := { st0 with time := (t : ℚ) }
  match predict_max env st with
  | .error e => .error e
  | .ok _ =>
    match selectAction env st t with
    | .error e => .error e
    | .ok res =>
      let st1 := { res.state with metricsLog := res.state.metricsLog ++ [t] }
      if res.bestPath = [] then .error .indexError
      else
        match stackLocs st1.dim t res.bestPath with
        | .error e => .error e
        | .ok xlocs =>
          let st2 := collect_observations env st1 xlocs
          .ok { st2 with trajectory := st2.trajectory ++ [res.bestPath],
                         dist := st2.dist + pathDist env st2.loc res.bestPath,
                         loc := res.bestPath.getLastD [] }

/-- The `for t in xrange(T)` loop of `planner`, propagating any raised
exception. -/
def plannerAux (env : Env) : ℕ → ℕ → RobotState → Except PyError RobotState
  | 0, _, st => .ok st
  | Nat.succ n, t, st =>
    match plannerStep env st t with
    | .error e => .error e
    | .ok st1 => plannerAux env n (t + 1) st1

/-- `Robot.planner` (lines 207-296): initialises the trajectory history
and distance, runs `T` iterations, and finally exports the observed
locations and values (`np.savetxt` of `self.GP.xvals[:, 0]`,
`self.GP.xvals[:, 1]`, `self.GP.zvals[:, 0]`, line 296) — subscripting
`xvals` raises `TypeError` when it is still `None`.  The successful result
carries the final state and the exported (locations, values) payload; an
exception anywhere aborts the run with nothing exported. -/
def planner (env : Env) (st : RobotState) (T : ℕ) :
    Except PyError (RobotState × (List Loc × List ℚ)) :=
  let st0 := { st with trajectory := [], dist := 0 }
  match plannerAux env T 0 st0 with
  | .error e => .error e
  | .ok stf =>
    match stf.gp.xvals with
    | none => .error .typeError
    | some xs => .ok (stf, (xs, stf.gp.zvals))

/-- `planner` run on the robot produced by `mkRobot`; `none` when
construction itself failed. -/
def plannerAfterMk (cfg : Config) (env : Env) (T : ℕ) :
    Option (Except PyError (RobotState × (List Loc × List ℚ))) :=
  match mkRobot cfg with
  | .ok st => some (planner env st T)
  | .error _ => none

/-- The kernel resolution recorded by a construction attempt. -/
def robotKernelRes : Except PyError RobotState → Option KernelRes
  | .ok st => some st.kernelRes
  | .error _ => none

/-- The acquisition function recorded by a construction attempt. -/
def robotAcq : Except PyError RobotState → Option AcqFun
  | .ok st => some st.aquisition_function
  | .error _ => none

/-- The belief locations held right after a construction attempt. -/
def robotXvals : Except PyError RobotState → Option (Option (List Loc))
  | .ok st => some st.gp.xvals
  | .error _ => none

/-- The belief data store right after a construction attempt. -/
def robotGP : Except PyError RobotState → Option GPState
  | .ok st => some st.gp
  | .error _ => none

/-- The training dataset recorded by a construction attempt. -/
def robotTrainData : Except PyError RobotState → Option (Option (List Loc × List ℚ))
  | .ok st => some st.trainData
  | .error _ => none

/-- Whether a `choose_trajectory` call returned normally. -/
def chooseIsOk : Except PyError ChooseResult → Bool
  | .ok _ => true
  | .error _ => false

/-- The console/logger events of a `choose_trajectory` call. -/
def chooseEventsOf : Except PyError ChooseResult → List LogEvent
  | .ok res => res.events
  | .error _ => []

/-! ## Concrete test fixtures (environments, configurations, states) -/

/-- A degenerate environment: no candidate trajectories, all scores
not-a-number, zero measurements and predictions. -/
def envEmpty : Env :=
  { generate := fun _ _ => []
    score := fun _ _ _ _ => .nan
    measure := fun ls _ => ls.map (fun _ => 0)
    predict := fun ls => ls.map (fun _ => 0)
    sampleMaxVals := fun _ _ => ([], [], [])
    sampleMaxValsGumbel := fun _ _ => []
    mcts := fun _ _ _ => ([], .nan, [], [], [], [])
    sqrtQ := fun q => q
    randAt := fun _ => 0 }

/-- Three one-waypoint candidate trajectories, every score not-a-number. -/
def envNaN : Env :=
  { envEmpty with generate := fun _ _ => [[[0, 0]], [[1, 1]], [[2, 2]]] }

/-- Three candidates scored `[1, 3, 3]` (by matching on the trajectory). -/
def envScored : Env :=
  { envNaN with score := fun _ a _ _ => if a = [[0, 0]] then .num 1 else .num 3 }

/-- An environment whose sampler measures `5` at x-coordinate `0` and `1`
elsewhere. -/
def envMeasure : Env :=
  { envEmpty with measure := fun ls _ => ls.map (fun p => if p.getD 0 0 = 0 then 5 else 1) }

/-- An environment with a single two-waypoint candidate trajectory. -/
def envGen : Env :=
  { envEmpty with generate := fun _ _ => [[[0, 0], [1, 1]]] }

/-- A freshly constructed myopic robot over the extent `(0,10,0,10)`,
`mean` reward, empty belief (the state `mkRobot` produces for
`cfgBase`). -/
def stBase : RobotState :=
  { dim := 2
    loc := [5, 5]
    time := 0
    ranges := { x0 := 0, x1 := 10, y0 := 0, y1 := 10 }
    gp := { xvals := none, zvals := [] }
    kernelRes := .givenValues
    trainData := none
    f_rew := "mean"
    aquisition_function := .mean_UCB
    nonmyopic := false
    maxes := []
    current_max := -1000
    current_max_loc := [0, 0]
    max_val := none
    max_locs := none
    target := none
    trajectory := []
    dist := 0
    metricsLog := [] }

/-- `stBase` with one observation in the belief. -/
def stSome : RobotState :=
  { stBase with gp := { xvals := some [[1, 1]], zvals := [2] } }

/-- `stBase` with the `exp_improve` reward variant. -/
def stExp : RobotState :=
  { stBase with f_rew := "exp_improve", aquisition_function := .exp_improvement }

/-- A plain configuration: extent `(0,10,0,10)`, dimension 2, `mean`
reward, rbf kernel, no datasets, no kernel file, myopic. -/
def cfgBase : Config :=
  { extent := { x0 := 0, x1 := 10, y0 := 0, y1 := 10 }
    dimension := 2
    start_loc := [5, 5]
    start_time := 0
    noise := 1
    kernel := "rbf"
    kernel_dataset := none
    prior_dataset := none
    kernel_file := none
    f_rew := "mean"
    nonmyopic := false }

/-- A non-rbf kernel together with a kernel-training dataset and a kernel
file (the input on which the claim about branch two fails). -/
def cfgMatern : Config :=
  { cfgBase with kernel := "matern"
                 kernel_dataset := some ([[1, 1]], [2])
                 kernel_file := some "kernel.txt" }

/-- `cfgBase` with an unsupported dimensionality. -/
def cfgDim4 : Config :=
  { cfgBase with dimension := 4 }

/-- `cfgBase` with the `mes` reward variant. -/
def cfgMes : Config :=
  { cfgBase with f_rew := "mes" }

deriving instance DecidableEq for Except

/-! ## Helper lemmas -/

theorem listMax_cons {x : ℚ} {xs : List ℚ} (h : xs ≠ []) :
    listMax (x :: xs) = max x (listMax xs) := by
  cases xs with
  | nil => exact absurd rfl h
  | cons y t => rfl

theorem le_listMax {l : List ℚ} {v : ℚ} (hv : v ∈ l) : v ≤ listMax l := by
  induction l with
  | nil => cases hv
  | cons x xs ih =>
    cases xs with
    | nil =>
      rcases List.mem_singleton.mp hv with rfl
      exact le_rfl
    | cons y t =>
      rw [listMax_cons (List.cons_ne_nil y t)]
      rcases List.mem_cons.mp hv with rfl | hmem
      · exact le_max_left _ _
      · exact le_trans (ih hmem) (le_max_right _ _)

theorem listMax_mem {l : List ℚ} (h : l ≠ []) : listMax l ∈ l := by
  induction l with
  | nil => exact absurd rfl h
  | cons x xs ih =>
    cases xs with
    | nil => exact List.mem_singleton.mpr rfl
    | cons y t =>
      rw [listMax_cons (List.cons_ne_nil y t)]
      rcases max_choice x (listMax (y :: t)) with hc | hc
      · rw [hc]; exact List.mem_cons_self _ _
      · rw [hc]; exact List.mem_cons_of_mem _ (ih (List.cons_ne_nil y t))

theorem argmaxIdx_lt {l : List ℚ} (h : l ≠ []) : argmaxIdx l < l.length := by
  induction l with
  | nil => exact absurd rfl h
  | cons x xs ih =>
    rw [argmaxIdx]
    by_cases hc : listMax (x :: xs) ≤ x
    · simp [hc]
    · have hxs : xs ≠ [] := by
        intro he
        subst he
        exact hc le_rfl
      simp only [hc, if_false]
      exact Nat.succ_lt_succ (ih hxs)

theorem getD_argmaxIdx {l : List ℚ} (h : l ≠ []) :
    l.getD (argmaxIdx l) 0 = listMax l := by
  induction l with
  | nil => exact absurd rfl h
  | cons x xs ih =>
    rw [argmaxIdx]
    by_cases hc : listMax (x :: xs) ≤ x
    · simp only [hc, if_true]
      exact (le_antisymm hc (le_listMax (List.mem_cons_self x xs))).symm
    · have hxs : xs ≠ [] := by
        intro he
        subst he
        exact hc le_rfl
      simp only [hc, if_false, List.getD_cons_succ]
      rw [ih hxs, listMax_cons hxs]
      rcases max_choice x (listMax xs) with hm | hm
      · rw [listMax_cons hxs] at hc
        exact absurd (le_of_eq hm) hc
      · exact hm.symm

theorem toNum_eq_some {a : FVal} {q : ℚ} : a.toNum = some q ↔ a = .num q := by
  cases a <;> simp [FVal.toNum]

theorem nanmax_eq_num {l : List FVal} (h : l.filterMap FVal.toNum ≠ []) :
    nanmax l = .num (nanmaxVal l) := by
  rw [nanmax, nanmaxVal]
  cases hc : l.filterMap FVal.toNum with
  | nil => exact absurd hc h
  | cons x xs => rfl

theorem eq_of_eqb {a b : FVal} (h : FVal.eqb a b = true) : a = b := by
  cases a <;> cases b <;> simp_all [FVal.eqb]

theorem eqb_self_num (q : ℚ) : FVal.eqb (.num q) (.num q) = true := by
  simp [FVal.eqb]

theorem mem_selectionPool {values : List FVal} {k : ℕ} :
    k ∈ selectionPool values ↔
      k < values.length ∧ FVal.eqb (values.getD k .nan) (nanmax values) = true := by
  simp [selectionPool, List.mem_filter, List.mem_range]

/-- Semantic characterisation of the `try`-block key list: a key is in the
pool exactly when it indexes a score equal to the nanmax of all scores. -/
theorem mem_selectionPool_iff {values : List FVal} {k : ℕ} :
    k ∈ selectionPool values ↔
      k < values.length ∧ values.getD k .nan = nanmax values ∧
        ∃ q, values.getD k .nan = .num q := by
  rw [mem_selectionPool]
  constructor
  · rintro ⟨hk, he⟩
    have heq := eq_of_eqb he
    refine ⟨hk, heq, ?_⟩
    cases hv : values.getD k .nan with
    | nan => rw [hv] at he; exact absurd he (by simp [FVal.eqb])
    | num q => exact ⟨q, rfl⟩
  · rintro ⟨hk, heq, q, hq⟩
    refine ⟨hk, ?_⟩
    rw [← heq, hq]
    exact eqb_self_num q

theorem selectionPool_ne_nil {values : List FVal}
    (h : ∃ q, FVal.num q ∈ values) : selectionPool values ≠ [] := by
  obtain ⟨q, hq⟩ := h
  have hmem : q ∈ values.filterMap FVal.toNum :=
    List.mem_filterMap.mpr ⟨.num q, hq, rfl⟩
  have hnil : values.filterMap FVal.toNum ≠ [] := by
    intro he
    rw [he] at hmem
    cases hmem
  have hmax : FVal.num (nanmaxVal values) ∈ values := by
    have := listMax_mem hnil
    rw [nanmaxVal] at *
    exact (List.mem_filterMap.mp this).elim
      (fun a ⟨ha, hta⟩ => (toNum_eq_some.mp hta ▸ ha))
  obtain ⟨n, hn, hget⟩ := List.getElem_of_mem hmax
  have hk : n ∈ selectionPool values := by
    rw [mem_selectionPool]
    refine ⟨hn, ?_⟩
    rw [List.getD_eq_getElem _ _ hn, hget, nanmax_eq_num hnil]
    exact eqb_self_num _
  intro he
  rw [he] at hk
  cases hk

theorem selectionPool_eq_nil {values : List FVal}
    (h : ∀ v ∈ values, v = FVal.nan) : selectionPool values = [] := by
  rw [selectionPool, List.filter_eq_nil_iff]
  intro k hk
  have hlt : k < values.length := List.mem_range.mp hk
  have : values.getD k .nan = .nan :=
    h _ (by rw [List.getD_eq_getElem _ _ hlt]; exact List.getElem_mem hlt)
  rw [this]
  simp [FVal.eqb]

theorem selectionPool_getD_mem {values : List FVal} (h : selectionPool values ≠ [])
    (r : ℕ) : (selectionPool values).getD (r % (selectionPool values).length) 0 ∈
      selectionPool values := by
  have hpos : 0 < (selectionPool values).length := List.length_pos.mpr h
  have hlt : r % (selectionPool values).length < (selectionPool values).length :=
    Nat.mod_lt _ hpos
  rw [List.getD_eq_getElem _ _ hlt]
  exact List.getElem_mem hlt

theorem linspace_length (a b : ℚ) (n : ℕ) : (linspace a b n).length = n := by
  rw [linspace, List.length_map, List.length_range]

theorem gridData_length (st : RobotState) : (gridData st).length = 900 := by
  rw [gridData]
  by_cases hd : st.dim = 2
  · simp only [hd, if_true, List.length_flatten, List.map_map, Function.comp_def,
      List.length_map, linspace_length, List.map_const', List.sum_const_nat]
  · simp only [hd, if_false, List.length_flatten, List.map_map, Function.comp_def,
      List.length_map, linspace_length, List.map_const', List.sum_const_nat]

theorem gridData_ne_nil (st : RobotState) : gridData st ≠ [] := by
  intro he
  have := gridData_length st
  rw [he] at this
  simp at this

theorem getD_range {n i : ℕ} (h : i < n) : (List.range n).getD i 0 = i := by
  have hl : i < (List.range n).length := by simpa using h
  rw [List.getD_eq_getElem _ _ hl, List.getElem_range]

/-- Reduction of `choose_trajectory` when the argmax key list is nonempty:
the `try` block succeeds and `random.choice` picks from the argmax keys. -/
theorem choose_pick (env : Env) (st : RobotState) (t r : ℕ)
    (hpool : selectionPool (chooseValues env st t) ≠ []) :
    choose_trajectory env st t r = .ok
      { state := (buildParam env st t).2
        bestIdx := (selectionPool (chooseValues env st t)).getD
          (r % (selectionPool (chooseValues env st t)).length) 0
        bestPath := (chooseActions env st t).getD
          ((selectionPool (chooseValues env st t)).getD
            (r % (selectionPool (chooseValues env st t)).length) 0) []
        bestVal := (chooseValues env st t).getD
          ((selectionPool (chooseValues env st t)).getD
            (r % (selectionPool (chooseValues env st t)).length) 0) .nan
        actions := chooseActions env st t
        values := chooseValues env st t
        events := [LogEvent.printed "num of available actions"] } := by
  simp only [choose_trajectory]
  rw [if_pos hpool]

/-- Reduction of `choose_trajectory` when the argmax key list is empty but
candidates exist: the `try` block raises, and the bare `except` falls back
to `random.choice` over all keys. -/
theorem choose_fallback (env : Env) (st : RobotState) (t r : ℕ)
    (hpool : selectionPool (chooseValues env st t) = [])
    (hnz : (chooseValues env st t).length ≠ 0) :
    choose_trajectory env st t r = .ok
      { state := (buildParam env st t).2
        bestIdx := r % (chooseValues env st t).length
        bestPath := (chooseActions env st t).getD
          (r % (chooseValues env st t).length) []
        bestVal := (chooseValues env st t).getD
          (r % (chooseValues env st t).length) .nan
        actions := chooseActions env st t
        values := chooseValues env st t
        events := [LogEvent.printed "num of available actions"] } := by
  have hr : r % (chooseValues env st t).length < (chooseValues env st t).length :=
    Nat.mod_lt _ (Nat.pos_of_ne_zero hnz)
  simp only [choose_trajectory]
  rw [if_neg (by simp [hpool]), if_pos hnz, getD_range hr]

/-- Reduction of `choose_trajectory` with no candidates at all: both
`random.choice` calls raise `IndexError`; the second is uncaught. -/
theorem choose_crash (env : Env) (st : RobotState) (t r : ℕ)
    (hpool : selectionPool (chooseValues env st t) = [])
    (hz : (chooseValues env st t).length = 0) :
    choose_trajectory env st t r = .error .indexError := by
  simp only [choose_trajectory]
  rw [if_neg (by simp [hpool]), if_neg (by simp [hz])]

/-! ## Claim theorems -/

/-- **C1** — evidence of the code bug: when the candidate generator
returns an empty sequence, the run does *not* terminate early as a normal
condition.  The `try` block's `random.choice` raises `IndexError` on the
empty argmax key list; the bare `except` then calls `random.choice` on the
empty key list, which raises an uncaught `IndexError` (the graceful
`return None` of line 173 is commented out).  `planner` therefore aborts
with the exception: the `sampling_path is None` break is never reached and
the final `np.savetxt` export of the accumulated observations never
happens. -/
theorem empty_candidates_crash :
    choose_trajectory envEmpty stBase 0 0 = .error .indexError ∧
    planner envEmpty stBase 5 = .error .indexError :=
  ⟨rfl, rfl⟩

/-- **C2** — counterexample to the claim as stated: on a three-candidate
set whose scores are all not-a-number the fallback *is* taken and a
trajectory is returned, but the call emits no warning-level log event at
all (its console output consists of the single `print` of line 159), so
the fallback is silent, contradicting "logged as a warning-level event
rather than silent". -/
theorem allnan_fallback_is_silent :
    chooseIsOk (choose_trajectory envNaN stBase 0 0) = true ∧
    selectionPool (chooseValues envNaN stBase 0) = [] ∧
    (chooseEventsOf (choose_trajectory envNaN stBase 0 0)).filter LogEvent.isWarning
      = [] := by
  refine ⟨by decide, by decide, by decide⟩

/-- **C2 (amended)**: when the candidate set is non-empty but every
candidate's score is not-a-number, `choose_trajectory` still returns a
trajectory (never `None`), selected uniformly at random among all
candidates — but the fallback is reached through the bare `except` handler
and is silent: no warning-level event is logged.  The run continues. -/
theorem allnan_uniform_fallback (env : Env) (st : RobotState) (t r : ℕ)
    (hne : chooseActions env st t ≠ [])
    (hnan : ∀ v ∈ chooseValues env st t, v = .nan) :
    ∃ res, choose_trajectory env st t r = .ok res ∧
      res.bestIdx = r % (chooseActions env st t).length ∧
      res.bestIdx < (chooseActions env st t).length ∧
      selectionPool (chooseValues env st t) = [] ∧
      (∀ k, k < (chooseActions env st t).length →
        ∃ r2 res2, choose_trajectory env st t r2 = .ok res2 ∧ res2.bestIdx = k) ∧
      res.events.filter LogEvent.isWarning = [] := by
  have hpool : selectionPool (chooseValues env st t) = [] := selectionPool_eq_nil hnan
  have hvlen : (chooseValues env st t).length = (chooseActions env st t).length :=
    List.length_map _ _
  have hnz : (chooseValues env st t).length ≠ 0 := by
    rw [hvlen]
    exact Nat.pos_iff_ne_zero.mp (List.length_pos.mpr hne)
  refine ⟨_, choose_fallback env st t r hpool hnz, ?_, ?_, hpool, ?_, ?_⟩
  · rw [hvlen]
  · rw [← hvlen]
    exact Nat.mod_lt _ (Nat.pos_of_ne_zero hnz)
  · intro k hk
    refine ⟨k, _, choose_fallback env st t k hpool hnz, ?_⟩
    rw [Nat.mod_eq_of_lt (hvlen ▸ hk)]
  · rfl

/-- **C2 witness**: the amended statement at the concrete all-not-a-number
three-candidate input. -/
theorem allnan_uniform_fallback_witness :
    ∃ res, choose_trajectory envNaN stBase 0 1 = .ok res ∧
      res.bestIdx = 1 % (chooseActions envNaN stBase 0).length ∧
      res.bestIdx < (chooseActions envNaN stBase 0).length ∧
      selectionPool (chooseValues envNaN stBase 0) = [] ∧
      (∀ k, k < (chooseActions envNaN stBase 0).length →
        ∃ r2 res2, choose_trajectory envNaN stBase 0 r2 = .ok res2 ∧
          res2.bestIdx = k) ∧
      res.events.filter LogEvent.isWarning = [] :=
  allnan_uniform_fallback envNaN stBase 0 1 (by decide) (by decide)

/-- **C3**: in direct mode, with at least one numeric (non-NaN) score, the
selection returns a candidate whose score equals the NaN-ignoring maximum;
the key list handed to `random.choice` is exactly the set of candidates
tied at that maximum (so with a uniform draw the choice is uniform among
exactly the tied candidates), and a strictly dominated candidate is never
selected. -/
theorem choose_trajectory_max_rule (env : Env) (st : RobotState) (t r : ℕ)
    (h : ∃ q, FVal.num q ∈ chooseValues env st t) :
    ∃ res, choose_trajectory env st t r = .ok res ∧
      res.bestIdx ∈ selectionPool (chooseValues env st t) ∧
      res.bestVal = nanmax (chooseValues env st t) ∧
      res.bestVal = .num (nanmaxVal (chooseValues env st t)) ∧
      (∀ k, k ∈ selectionPool (chooseValues env st t) ↔
        k < (chooseValues env st t).length ∧
          (chooseValues env st t).getD k .nan = nanmax (chooseValues env st t) ∧
          ∃ q, (chooseValues env st t).getD k .nan = .num q) ∧
      (∀ k, k ∈ selectionPool (chooseValues env st t) →
        ∃ r2 res2, choose_trajectory env st t r2 = .ok res2 ∧ res2.bestIdx = k) ∧
      (∀ k q, (chooseValues env st t).getD k .nan = .num q →
        q < nanmaxVal (chooseValues env st t) → res.bestIdx ≠ k) := by
  obtain ⟨q0, hq0⟩ := h
  have hnums : (chooseValues env st t).filterMap FVal.toNum ≠ [] := by
    intro he
    have : q0 ∈ (chooseValues env st t).filterMap FVal.toNum :=
      List.mem_filterMap.mpr ⟨.num q0, hq0, rfl⟩
    rw [he] at this
    cases this
  have hpool : selectionPool (chooseValues env st t) ≠ [] :=
    selectionPool_ne_nil ⟨q0, hq0⟩
  have hmem : (selectionPool (chooseValues env st t)).getD
      (r % (selectionPool (chooseValues env st t)).length) 0
        ∈ selectionPool (chooseValues env st t) :=
    selectionPool_getD_mem hpool r
  have hbest := (mem_selectionPool_iff).mp hmem
  refine ⟨_, choose_pick env st t r hpool, hmem, hbest.2.1, ?_, ?_, ?_, ?_⟩
  · rw [hbest.2.1, nanmax_eq_num hnums, nanmaxVal]
  · intro k
    exact mem_selectionPool_iff
  · intro k hk
    obtain ⟨i, hi, hget⟩ := List.getElem_of_mem hk
    refine ⟨i, _, choose_pick env st t i hpool, ?_⟩
    rw [Nat.mod_eq_of_lt hi, List.getD_eq_getElem _ _ hi, hget]
  · intro k q hkq hlt hbad
    rw [← hbad] at hkq
    rw [hbest.2.1, nanmax_eq_num hnums] at hkq
    have : nanmaxVal (chooseValues env st t) = q := by
      injection hkq
    rw [this] at hlt
    exact lt_irrefl q hlt

/-- **C3 witness**: the selection rule at the concrete three-candidate
input with scores `[1, 3, 3]` (Scenario A of the spec). -/
theorem choose_trajectory_max_rule_witness :
    ∃ res, choose_trajectory envScored stBase 0 0 = .ok res ∧
      res.bestIdx ∈ selectionPool (chooseValues envScored stBase 0) ∧
      res.bestVal = nanmax (chooseValues envScored stBase 0) ∧
      res.bestVal = .num (nanmaxVal (chooseValues envScored stBase 0)) ∧
      (∀ k, k ∈ selectionPool (chooseValues envScored stBase 0) ↔
        k < (chooseValues envScored stBase 0).length ∧
          (chooseValues envScored stBase 0).getD k .nan
            = nanmax (chooseValues envScored stBase 0) ∧
          ∃ q, (chooseValues envScored stBase 0).getD k .nan = .num q) ∧
      (∀ k, k ∈ selectionPool (chooseValues envScored stBase 0) →
        ∃ r2 res2, choose_trajectory envScored stBase 0 r2 = .ok res2 ∧
          res2.bestIdx = k) ∧
      (∀ k q, (chooseValues envScored stBase 0).getD k .nan = .num q →
        q < nanmaxVal (chooseValues envScored stBase 0) → res.bestIdx ≠ k) :=
  choose_trajectory_max_rule envScored stBase 0 0 ⟨1, by decide⟩

/-- **C4** — evidence of the code bug: `collect_observations` measures at
`xobs[:-1,:]` but pairs those values with `xobs[1:,:]` in the running-max
loop, so the location stored alongside a new maximum is the waypoint
*after* the one where the value was observed.  Concretely: sampling the
waypoints `[0,0]` and `[1,1]` yields the values `[5, 1]` (so `5` was
observed at `[0,0]`), the tracker's value becomes `5`, but its stored
location becomes `[1,1]` ≠ `[0,0]`. -/
theorem running_max_location_off_by_one :
    envMeasure.measure ([[0, 0], [1, 1], [2, 2]] : List Loc).dropLast stBase.time
      = [5, 1] ∧
    (collect_observations envMeasure stBase [[0, 0], [1, 1], [2, 2]]).current_max
      = 5 ∧
    (collect_observations envMeasure stBase [[0, 0], [1, 1], [2, 2]]).current_max_loc
      = [1, 1] ∧
    ([1, 1] : Loc) ≠ [0, 0] := by
  refine ⟨by decide, by decide, by decide, by decide⟩

/-- **C5**: `collect_observations` samples every waypoint except the last
(the `xobs[:-1,:]` slice), obtains one value per sampled waypoint (the
sampler hypothesis `hlen`), appends all pairs to the belief in a single
batch, and the observation count grows by exactly the trajectory length
minus one — in particular the belief never shrinks. -/
theorem collect_observations_batch (env : Env) (st : RobotState) (xobs : List Loc)
    (hlen : (env.measure xobs.dropLast st.time).length = xobs.dropLast.length) :
    (collect_observations env st xobs).gp.xvals
      = some (st.gp.xvals.getD [] ++ xobs.dropLast) ∧
    (collect_observations env st xobs).gp.zvals
      = st.gp.zvals ++ env.measure xobs.dropLast st.time ∧
    gpCount (collect_observations env st xobs).gp
      = gpCount st.gp + (xobs.length - 1) ∧
    gpCount st.gp ≤ gpCount (collect_observations env st xobs).gp := by
  refine ⟨rfl, rfl, ?_, ?_⟩
  · show (st.gp.zvals ++ env.measure xobs.dropLast st.time).length = _
    rw [List.length_append, hlen, List.length_dropLast, gpCount]
  · show gpCount st.gp ≤ (st.gp.zvals ++ env.measure xobs.dropLast st.time).length
    rw [List.length_append]
    exact Nat.le_add_right _ _

/-- **C5 witness**: the batch-update contract at the concrete
three-waypoint trajectory. -/
theorem collect_observations_batch_witness :
    gpCount (collect_observations envMeasure stBase [[0, 0], [1, 1], [2, 2]]).gp
      = gpCount stBase.gp + 2 ∧
    (collect_observations envMeasure stBase [[0, 0], [1, 1], [2, 2]]).gp.xvals
      = some [[0, 0], [1, 1]] :=
  ⟨(collect_observations_batch envMeasure stBase [[0, 0], [1, 1], [2, 2]]
      (by decide)).2.2.1,
   (collect_observations_batch envMeasure stBase [[0, 0], [1, 1], [2, 2]]
      (by decide)).1⟩

/-- **C6** — counterexample to the claim as stated: with a kernel-training
dataset supplied but a non-rbf kernel (and a kernel file also supplied),
the claim's second branch ("whenever a kernel-training dataset is supplied
it alone is used to fit the hyperparameters") does not fire — the code's
second branch also requires `self.kernel == 'rbf'`, so the serialized
kernel file is loaded instead and the dataset is silently ignored. -/
theorem kernel_dataset_ignored_for_nonrbf :
    cfgMatern.kernel_dataset.isSome = true ∧
    robotKernelRes (mkRobot cfgMatern) = some KernelRes.loadedFile ∧
    robotTrainData (mkRobot cfgMatern) = some none ∧
    some KernelRes.loadedFile ≠ some KernelRes.trainedAlone := by
  refine ⟨rfl, by decide, by decide, by decide⟩

/-- **C6 (amended)**: exactly one of the four kernel-hyperparameter
branches executes, selected by the `if/elif` chain — but a supplied
kernel-training dataset is used (jointly or alone) only when the kernel is
the rbf variant; with any other kernel the dataset is ignored and the
kernel-file / given-values branches apply.  The joint branch fits on the
prior dataset stacked on top of the kernel dataset, and the prior dataset
is folded into the belief as observations only after hyperparameter
resolution: the belief right after construction holds exactly the prior
dataset (and nothing of the kernel-training dataset). -/
theorem kernel_branch_table (cfg : Config) (h : (mkRobot cfg).isOk = true) :
    robotKernelRes (mkRobot cfg) = some (
      if cfg.kernel_dataset.isSome && cfg.prior_dataset.isSome
          && decide (cfg.kernel = "rbf") then KernelRes.trainedJoint
      else if cfg.kernel_dataset.isSome && decide (cfg.kernel = "rbf") then
        KernelRes.trainedAlone
      else if cfg.kernel_file.isSome then KernelRes.loadedFile
      else KernelRes.givenValues) ∧
    robotTrainData (mkRobot cfg) = some (
      if cfg.kernel_dataset.isSome && cfg.prior_dataset.isSome
          && decide (cfg.kernel = "rbf") then
        some ((cfg.prior_dataset.getD ([], [])).1 ++ (cfg.kernel_dataset.getD ([], [])).1,
              (cfg.prior_dataset.getD ([], [])).2 ++ (cfg.kernel_dataset.getD ([], [])).2)
      else if cfg.kernel_dataset.isSome && decide (cfg.kernel = "rbf") then
        some (cfg.kernel_dataset.getD ([], []))
      else none) ∧
    robotGP (mkRobot cfg) = some
      { xvals := cfg.prior_dataset.map Prod.fst
        zvals := (cfg.prior_dataset.map Prod.snd).getD [] } := by
  cases hacq : acqOf cfg.f_rew with
  | none =>
    rw [mkRobot] at h
    rw [hacq] at h
    cases h
  | some acq =>
    simp only [mkRobot, hacq, robotKernelRes, robotTrainData, robotGP]
    refine ⟨by rw [resolveKernelRes], by rw [resolveTrainData], ?_⟩
    cases cfg.prior_dataset with
    | none => rfl
    | some pd => simp [addData]

/-- **C6 witness**: the amended branch table at a concrete configuration
(rbf kernel, no datasets, no kernel file: the given-values branch). -/
theorem kernel_branch_table_witness :
    robotKernelRes (mkRobot cfgBase) = some (
      if cfgBase.kernel_dataset.isSome && cfgBase.prior_dataset.isSome
          && decide (cfgBase.kernel = "rbf") then KernelRes.trainedJoint
      else if cfgBase.kernel_dataset.isSome && decide (cfgBase.kernel = "rbf") then
        KernelRes.trainedAlone
      else if cfgBase.kernel_file.isSome then KernelRes.loadedFile
      else KernelRes.givenValues) ∧
    robotTrainData (mkRobot cfgBase) = some (
      if cfgBase.kernel_dataset.isSome && cfgBase.prior_dataset.isSome
          && decide (cfgBase.kernel = "rbf") then
        some ((cfgBase.prior_dataset.getD ([], [])).1
                ++ (cfgBase.kernel_dataset.getD ([], [])).1,
              (cfgBase.prior_dataset.getD ([], [])).2
                ++ (cfgBase.kernel_dataset.getD ([], [])).2)
      else if cfgBase.kernel_dataset.isSome && decide (cfgBase.kernel = "rbf") then
        some (cfgBase.kernel_dataset.getD ([], []))
      else none) ∧
    robotGP (mkRobot cfgBase) = some
      { xvals := cfgBase.prior_dataset.map Prod.fst
        zvals := (cfgBase.prior_dataset.map Prod.snd).getD [] } :=
  kernel_branch_table cfgBase (by decide)

/-- **C7**: the reward-variant tag must belong to the closed five-element
set `{mean, info_gain, mes, exp_improve, gumbel}`; any other tag makes
construction fail with the `ValueError` of line 104 (all-or-nothing: no
robot object is produced), and each supported tag selects exactly the
corresponding acquisition function of `heuristic_rewards`. -/
theorem f_rew_closed_set (cfg : Config) :
    (cfg.f_rew ∉ (["mean", "info_gain", "mes", "exp_improve", "gumbel"] : List String) →
      mkRobot cfg = .error .valueError) ∧
    (cfg.f_rew ∈ (["mean", "info_gain", "mes", "exp_improve", "gumbel"] : List String) →
      (mkRobot cfg).isOk = true) ∧
    (cfg.f_rew = "mean" → robotAcq (mkRobot cfg) = some .mean_UCB) ∧
    (cfg.f_rew = "info_gain" → robotAcq (mkRobot cfg) = some .info_gain) ∧
    (cfg.f_rew = "mes" → robotAcq (mkRobot cfg) = some .mves) ∧
    (cfg.f_rew = "exp_improve" → robotAcq (mkRobot cfg) = some .exp_improvement) ∧
    (cfg.f_rew = "gumbel" → robotAcq (mkRobot cfg) = some .gumbel_mves) := by
  have hout : cfg.f_rew ∉ (["mean", "info_gain", "mes", "exp_improve", "gumbel"] : List String) →
      acqOf cfg.f_rew = none := by
    intro hs
    rw [acqOf]
    split_ifs with h1 h2 h3 h4 h5
    · exact absurd (by simp [h1]) hs
    · exact absurd (by simp [h2]) hs
    · exact absurd (by simp [h3]) hs
    · exact absurd (by simp [h4]) hs
    · exact absurd (by simp [h5]) hs
    · rfl
  refine ⟨?_, ?_, ?_, ?_, ?_, ?_, ?_⟩
  · intro hs
    rw [mkRobot, hout hs]
  · intro hs
    simp only [List.mem_cons, List.not_mem_nil, or_false] at hs
    rcases hs with h | h | h | h | h
    · rw [mkRobot, h]; rfl
    · rw [mkRobot, h]; rfl
    · rw [mkRobot, h]; rfl
    · rw [mkRobot, h]; rfl
    · rw [mkRobot, h]; rfl
  · intro h; rw [mkRobot, h]; rfl
  · intro h; rw [mkRobot, h]; rfl
  · intro h; rw [mkRobot, h]; rfl
  · intro h; rw [mkRobot, h]; rfl
  · intro h; rw [mkRobot, h]; rfl

/-- **C7 witness**: the dispatch at the concrete tags `"mes"` (supported,
selects `mves`) and `"hotspot_info"` (unsupported, `ValueError`). -/
theorem f_rew_closed_set_witness :
    robotAcq (mkRobot cfgMes) = some AcqFun.mves ∧
    mkRobot { cfgBase with f_rew := "hotspot_info" } = .error .valueError :=
  ⟨(f_rew_closed_set cfgMes).2.2.2.2.1 rfl,
   (f_rew_closed_set { cfgBase with f_rew := "hotspot_info" }).1 (by decide)⟩

/-! ### State-preservation lemmas for the planning loop -/

theorem buildParam_dim (env : Env) (st : RobotState) (t : ℕ) :
    (buildParam env st t).2.dim = st.dim := by
  rw [buildParam]
  split_ifs <;> rfl

theorem buildParam_maxes (env : Env) (st : RobotState) (t : ℕ) :
    (buildParam env st t).2.maxes = st.maxes := by
  rw [buildParam]
  split_ifs <;> rfl

theorem choose_ok_state (env : Env) (st : RobotState) (t r : ℕ) (res : ChooseResult)
    (h : choose_trajectory env st t r = .ok res) :
    res.state = (buildParam env st t).2 := by
  simp only [choose_trajectory] at h
  split at h
  · rw [← Except.ok.inj h]
  · split at h
    · rw [← Except.ok.inj h]
    · cases h

theorem mctsChoose_state (env : Env) (st : RobotState) (t : ℕ) (res : ChooseResult)
    (h : mctsChoose env st t = .ok res) :
    res.state.dim = st.dim ∧ res.state.maxes = st.maxes := by
  simp only [mctsChoose] at h
  rw [← Except.ok.inj h]
  exact ⟨rfl, rfl⟩

theorem selectAction_state (env : Env) (st : RobotState) (t : ℕ) (res : ChooseResult)
    (h : selectAction env st t = .ok res) :
    res.state.dim = st.dim ∧ res.state.maxes = st.maxes := by
  rw [selectAction] at h
  by_cases hm : st.nonmyopic = false
  · rw [if_pos hm] at h
    rw [choose_ok_state env st t (env.randAt t) res h]
    exact ⟨buildParam_dim env st t, buildParam_maxes env st t⟩
  · rw [if_neg hm] at h
    exact mctsChoose_state env st t res h

theorem collect_observations_maxes (env : Env) (st : RobotState) (xobs : List Loc) :
    (collect_observations env st xobs).maxes = st.maxes := rfl

theorem stackLocs_error (d t : ℕ) (path : Traj) (hd2 : d ≠ 2) (hd3 : d ≠ 3) :
    stackLocs d t path = .error .valueError := by
  rw [stackLocs, if_neg hd2, if_neg hd3]

theorem plannerStep_maxes (env : Env) (st st2 : RobotState) (t : ℕ)
    (h : plannerStep env st t = .ok st2) : st2.maxes = st.maxes := by
  simp only [plannerStep] at h
  split at h
  · cases h
  · split at h
    · cases h
    · rename_i res heq
      split at h
      · cases h
      · split at h
        · cases h
        · rename_i xlocs hx
          rw [← Except.ok.inj h]
          exact (collect_observations_maxes env _ xlocs).trans
            ((selectAction_state _ _ _ _ heq).2)

theorem plannerStep_error_of_bad_dim (env : Env) (st : RobotState) (t : ℕ)
    (hd2 : st.dim ≠ 2) (hd3 : st.dim ≠ 3) :
    ∃ e, plannerStep env st t = .error e := by
  simp only [plannerStep]
  split
  · exact ⟨_, rfl⟩
  · split
    · exact ⟨_, rfl⟩
    · rename_i res heq
      split
      · exact ⟨.indexError, rfl⟩
      · rw [stackLocs_error _ t res.bestPath
          (by show res.state.dim ≠ 2
              rw [(selectAction_state _ _ _ _ heq).1]
              exact hd2)
          (by show res.state.dim ≠ 3
              rw [(selectAction_state _ _ _ _ heq).1]
              exact hd3)]
        exact ⟨.valueError, rfl⟩

theorem plannerAux_maxes (env : Env) :
    ∀ n t (st st2 : RobotState), plannerAux env n t st = .ok st2 →
      st2.maxes = st.maxes := by
  intro n
  induction n with
  | zero =>
    intro t st st2 h
    simp only [plannerAux] at h
    rw [← Except.ok.inj h]
  | succ n ih =>
    intro t st st2 h
    simp only [plannerAux] at h
    cases hs : plannerStep env st t with
    | error e => rw [hs] at h; cases h
    | ok st1 =>
      rw [hs] at h
      rw [ih _ _ _ h, plannerStep_maxes env st st1 t hs]

theorem planner_maxes (env : Env) (st : RobotState) (T : ℕ)
    (res : RobotState × (List Loc × List ℚ)) (h : planner env st T = .ok res) :
    res.1.maxes = st.maxes := by
  simp only [planner] at h
  split at h
  · cases h
  · rename_i stf ha
    split at h
    · cases h
    · rename_i xs hx
      rw [← Except.ok.inj h]
      exact plannerAux_maxes env T 0 { st with trajectory := [], dist := 0 } stf ha

theorem planner_error_of_step (env : Env) (st : RobotState) (T : ℕ) (hT : 1 ≤ T)
    (h : ∃ e, plannerStep env { st with trajectory := [], dist := 0 } 0 = .error e) :
    ∃ e, planner env st T = .error e := by
  obtain ⟨n, rfl⟩ : ∃ n, T = n + 1 := ⟨T - 1, (Nat.succ_pred_eq_of_pos hT).symm⟩
  obtain ⟨e, he⟩ := h
  refine ⟨e, ?_⟩
  simp only [planner, plannerAux]
  rw [he]

/-- **C8** — counterexample to the claim as stated: a configuration with
dimensionality 4 is *not* rejected at construction time; `Robot.__init__`
performs no dimensionality validation and returns a fully constructed
agent. -/
theorem dim4_constructs_successfully :
    (mkRobot cfgDim4).isOk = true ∧ cfgDim4.dimension = 4 :=
  ⟨by decide, rfl⟩

/-- **C8 (amended)**: a dimensionality outside {2, 3} is not a
construction-time error — construction succeeds — and the configuration
error surfaces only inside the planning loop: every run of at least one
iteration aborts with an exception (the `NameError` of `predict_max` on a
non-empty belief, or the `ValueError('Only 2D or 3D worlds supported!')`
of the observation-location assembly, or the `IndexError` of an empty
candidate set). -/
theorem dim_not_checked_at_construction (cfg : Config) (env : Env) (T : ℕ)
    (hd2 : cfg.dimension ≠ 2) (hd3 : cfg.dimension ≠ 3)
    (hf : cfg.f_rew = "mean") (hT : 1 ≤ T) :
    (mkRobot cfg).isOk = true ∧
    ∃ e, plannerAfterMk cfg env T = some (.error e) := by
  have hacq : acqOf cfg.f_rew = some .mean_UCB := by
    rw [hf]
    rfl
  have hmk : ∃ R, mkRobot cfg = .ok R := by
    simp only [mkRobot, hacq]
    exact ⟨_, rfl⟩
  obtain ⟨R, hmk⟩ := hmk
  have hdim : R.dim = cfg.dimension := by
    have hmk2 := hmk
    simp only [mkRobot, hacq] at hmk2
    rw [← Except.ok.inj hmk2]
  constructor
  · rw [hmk]
    rfl
  · have hstep := plannerStep_error_of_bad_dim env
      { R with trajectory := [], dist := 0 } 0
      (by show R.dim ≠ 2; rw [hdim]; exact hd2)
      (by show R.dim ≠ 3; rw [hdim]; exact hd3)
    obtain ⟨e, he⟩ := planner_error_of_step env R T hT hstep
    refine ⟨e, ?_⟩
    simp only [plannerAfterMk, hmk, he]

/-- **C8 witness**: the amended statement at the concrete
dimension-4 configuration with a nonempty candidate generator. -/
theorem dim_not_checked_at_construction_witness :
    (mkRobot cfgDim4).isOk = true ∧
    ∃ e, plannerAfterMk cfgDim4 envGen 3 = some (.error e) :=
  dim_not_checked_at_construction cfgDim4 envGen 3 (by decide) (by decide) rfl
    (by decide)

/-- **C9**: `predict_max` on an empty belief returns the origin and zero
without consulting the predictor (the result is identical for any two
predictors); otherwise it evaluates the posterior mean on the fixed
30-points-per-axis grid over the configured extent (`gridData`, with the
current time index appended in the 3-D case) and returns a grid point
achieving the maximum posterior mean together with that maximum value. -/
theorem predict_max_spec (env env2 : Env) (st : RobotState)
    (hlen : (env.predict (gridData st)).length = (gridData st).length) :
    (st.gp.xvals = none →
      predict_max env st = .ok ([0, 0], 0) ∧
      predict_max env st = predict_max env2 st) ∧
    (st.gp.xvals ≠ none → st.dim = 2 ∨ st.dim = 3 →
      (gridData st).length = 30 * 30 ∧
      ∃ i, i < (gridData st).length ∧
        predict_max env st = .ok ((gridData st).getD i [],
          (env.predict (gridData st)).getD i 0) ∧
        ∀ v ∈ env.predict (gridData st),
          v ≤ (env.predict (gridData st)).getD i 0) := by
  constructor
  · intro hx
    rw [predict_max, predict_max, hx]
    exact ⟨rfl, rfl⟩
  · intro hx hd
    refine ⟨by rw [gridData_length], ?_⟩
    have hone : (env.predict (gridData st)).length = 900 :=
      hlen.trans (gridData_length st)
    have hobs : env.predict (gridData st) ≠ [] := by
      intro he
      rw [he] at hone
      cases hone
    have hargl : argmaxIdx (env.predict (gridData st)) <
        (env.predict (gridData st)).length := argmaxIdx_lt hobs
    refine ⟨argmaxIdx (env.predict (gridData st)), hlen ▸ hargl, ?_, ?_⟩
    · cases hxv : st.gp.xvals with
      | none => exact absurd hxv hx
      | some l =>
        rw [predict_max, hxv, if_pos hd, getD_argmaxIdx hobs]
    · intro v hv
      rw [getD_argmaxIdx hobs]
      exact le_listMax hv

/-- **C9 witness**: the grid-maximum contract at a concrete one-point
belief over the extent `(0,10,0,10)` (and the empty-belief default at the
fresh state). -/
theorem predict_max_spec_witness :
    (predict_max envEmpty stBase = .ok ([0, 0], 0) ∧
      predict_max envEmpty stBase = predict_max envNaN stBase) ∧
    ((gridData stSome).length = 30 * 30 ∧
      ∃ i, i < (gridData stSome).length ∧
        predict_max envEmpty stSome = .ok ((gridData stSome).getD i [],
          (envEmpty.predict (gridData stSome)).getD i 0) ∧
        ∀ v ∈ envEmpty.predict (gridData stSome),
          v ≤ (envEmpty.predict (gridData stSome)).getD i 0) :=
  ⟨(predict_max_spec envEmpty envNaN stBase
      (by simp only [envEmpty, List.length_map])).1 rfl,
   (predict_max_spec envEmpty envNaN stSome
      (by simp only [envEmpty, List.length_map])).2 (by decide) (Or.inl rfl)⟩

/-- **C10**: the running-max history `maxes` is initialised empty at
construction and no embedded operation ever modifies it — it stays empty
through `choose_trajectory`, `collect_observations`, every planner step
and whole planner runs — hence the `exp_improve` history branch of the
reward-parameter construction is unreachable and the parameter always
equals the one-element list `[current_max]`. -/
theorem maxes_never_appended :
    (∀ cfg st, mkRobot cfg = .ok st → st.maxes = []) ∧
    (∀ env st t r res, choose_trajectory env st t r = .ok res →
      res.state.maxes = st.maxes) ∧
    (∀ env st xobs, (collect_observations env st xobs).maxes = st.maxes) ∧
    (∀ env st t st2, plannerStep env st t = .ok st2 → st2.maxes = st.maxes) ∧
    (∀ env st T res, planner env st T = .ok res → res.1.maxes = st.maxes) ∧
    (∀ env st t, st.f_rew = "exp_improve" → st.maxes = [] →
      (buildParam env st t).1 = Param.scalars [st.current_max]) := by
  refine ⟨?_, ?_, ?_, ?_, ?_, ?_⟩
  · intro cfg st h
    cases hacq : acqOf cfg.f_rew with
    | none =>
      simp only [mkRobot, hacq] at h
      cases h
    | some acq =>
      simp only [mkRobot, hacq] at h
      rw [← Except.ok.inj h]
  · intro env st t r res h
    rw [choose_ok_state env st t r res h]
    exact buildParam_maxes env st t
  · intro env st xobs
    exact collect_observations_maxes env st xobs
  · intro env st t st2 h
    exact plannerStep_maxes env st st2 t h
  · intro env st T res h
    exact planner_maxes env st T res h
  · intro env st t hf hm
    rw [buildParam, hf, hm]
    simp

/-- **C10 witness**: the empty history and the fallback parameter at
concrete states. -/
theorem maxes_never_appended_witness :
    stBase.maxes = [] ∧
    (buildParam envEmpty stExp 0).1 = Param.scalars [stExp.current_max] :=
  ⟨maxes_never_appended.1 cfgBase stBase (by decide),
   maxes_never_appended.2.2.2.2.2 envEmpty stExp 0 rfl rfl⟩

end Plumes
